import Mathlib

/-
Shallow embedding of the healthcare voice triage agent.

Source files embedded:
  - healthcare_mcp_server/server.py : tool dispatch server (call_tool,
    handle_triage_patient, handle_schedule_appointment, handle_notify_team)
  - app.py : conversation orchestrator (_call_mcp_tool_async,
    _agent_reply_from_text, handle_audio_input, end_call_and_generate_report)

Modelling conventions:
  - Python strings are Lean `String`; `s.lower()` / `s.upper()` / `s[:n]` /
    `s.strip()` are modelled on the code-point list `s.data` (the strings
    involved are ASCII, where the semantics coincide).
  - Python exceptions are a `PyExn` value carrying the class name and the
    `str(e)` text; fallible calls return `Except PyExn α`.
  - External library calls (the knowledge base query, the OpenAI extraction,
    `datetime.isoformat`, `json.dumps`, `json.loads`, STT/TTS) are parameters
    of the embedded functions: the code under verification only sequences and
    formats their results.
  - `datetime.utcnow()` is a `Nat` of seconds; `timedelta(hours=h)` adds
    `h * 60 * 60` seconds, `timedelta(days=d)` adds `d * 24 * 60 * 60`.
  - A Python dict payload is an association list `Dict` of string keys and
    `JVal` values, in construction order; `"k" in d` is `hasKey d k`.
-/

/-- A Python exception value: its class name and its `str(e)` rendering. -/
structure PyExn where
  className : String
  msg : String
deriving DecidableEq, Repr

/-- A JSON-ish payload value as produced by the server handlers and the
dispatch client: booleans, strings, or a list of strings. -/
inductive JVal where
  | jbool (b : Bool)
  | jstr (s : String)
  | jarr (a : List String)
deriving DecidableEq, Repr

/-- A Python dict with string keys, as an association list in insertion
order. -/
abbrev Dict := List (String × JVal)

/-- Python `k in d` for a dict. -/
def hasKey (d : Dict) (k : String) : Bool := (d.lookup k).isSome

/-- Python `d.get(k, dflt)` where the call site uses the value as a string
(every payload produced by the server stores a string at these keys). -/
def getStrD (d : Dict) (k : String) (dflt : String) : String :=
  match d.lookup k with
  | some (.jstr s) => s
  | _ => dflt

/-- Substring occurrence test on code-point lists: does `n` occur
contiguously inside the second list? Models Python `n in h` on strings. -/
def subOccurs (n : List Char) : List Char → Bool
  | [] => n.isPrefixOf []
  | c :: h => n.isPrefixOf (c :: h) || subOccurs n h

theorem subOccurs_iff (n h : List Char) : subOccurs n h = true ↔ n <:+: h := by
  induction h with
  | nil =>
      simp [subOccurs, List.isPrefixOf_iff_prefix, List.infix_nil,
        List.prefix_nil]
  | cons c h ih =>
      simp [subOccurs, List.isPrefixOf_iff_prefix, List.infix_cons_iff, ih]

/-- Python `needle in hay` on strings. -/
def strContains (hay needle : String) : Bool := subOccurs needle.data hay.data

/-- Python `s.lower()` (ASCII range, as used by the server). -/
def pyLower (s : String) : String := ⟨s.data.map Char.toLower⟩

/-- Python `s.upper()` (ASCII range, as used by the server). -/
def pyUpper (s : String) : String := ⟨s.data.map Char.toUpper⟩

/-- Python `s[:n]`: the first `n` code points of `s`. -/
def strTake (s : String) (n : Nat) : String := ⟨s.data.take n⟩

/-- Python `s.strip()`: drop leading and trailing whitespace. -/
def pyStrip (s : String) : String :=
  ⟨(((s.data.dropWhile Char.isWhitespace).reverse.dropWhile
      Char.isWhitespace).reverse)⟩

/-- `needle` occurs contiguously inside `hay` (propositional form). -/
def strSub (needle hay : String) : Prop := needle.data <:+: hay.data

theorem strContains_iff (hay needle : String) :
    strContains hay needle = true ↔ strSub needle hay :=
  subOccurs_iff needle.data hay.data

theorem strSub_refl (s : String) : strSub s s := List.infix_refl s.data

theorem strSub_ext_right (n h t : String) (hn : strSub n h) :
    strSub n (h ++ t) := by
  unfold strSub at hn ⊢
  rw [String.data_append]
  exact hn.trans ((List.prefix_append h.data t.data).isInfix)

theorem strSub_ext_left (n h t : String) (hn : strSub n t) :
    strSub n (h ++ t) := by
  unfold strSub at hn ⊢
  rw [String.data_append]
  exact hn.trans ((List.suffix_append h.data t.data).isInfix)

/- ----------------------------------------------------------------
   server.py : handle_triage_patient (lines 115-142)
   ---------------------------------------------------------------- -/

/-- The keyword test of the first branch of the urgency cascade
(server.py line 132). -/
def critKw (txt : String) : Bool :=
  strContains txt "emergency" || strContains txt "life-threatening" ||
    strContains txt "call 911"

/-- The keyword test of the second branch (server.py line 134). -/
def highKw (txt : String) : Bool :=
  strContains txt "emergency department" || strContains txt "urgent evaluation"

/-- The keyword test of the third branch (server.py line 136). -/
def lowKw (txt : String) : Bool :=
  strContains txt "monitor at home" || strContains txt "mild"

/-- server.py lines 130-137: classify the urgency level from the knowledge
base answer by the ordered keyword cascade on the lower-cased text. -/
def classifyUrgency (kb_answer : String) : String :=
  let txt := pyLower kb_answer
  if critKw txt then "critical"
  else if highKw txt then "high"
  else if lowKw txt then "low"
  else "moderate"

/-- The arguments dict passed to the three tool handlers, restricted to the
keys the handlers read with `.get` (absent key = `none`). -/
structure ToolArgs where
  age : Option Int := none
  symptoms : Option String := none
  duration : Option String := none
  risk_factors : Option String := none
  other_context : Option String := none
  urgency_level : Option String := none
  speciality : Option String := none
  patient_summary : Option String := none
  appointment_slot : Option String := none
deriving DecidableEq, Repr

/-- Python `str(x)` for the `age` value interpolated into the query
(`str(None) = "None"`). -/
def optIntStr : Option Int → String
  | none => "None"
  | some n => toString n

/-- server.py lines 122-127: the natural-language query built from the
arguments. -/
def triage_query (args : ToolArgs) : String :=
  "Patient aged " ++ optIntStr args.age ++ " years old. Symptoms: " ++
    (args.symptoms.getD "") ++ ". Duration: " ++ (args.duration.getD "") ++
    ". Risk factors: " ++ (args.risk_factors.getD "") ++
    ". Other context: " ++ (args.other_context.getD "") ++
    ". According to the guidelines, what urgency level is appropriate " ++
    "(critical / high / moderate / low) and what basic recommendations apply?"

/-- server.py lines 115-142: query the knowledge base (which may raise) and
classify the answer; returns `(urgency_level, guidelines_answer)`. -/
def handle_triage_patient (kb : String → Except PyExn String)
    (args : ToolArgs) : Except PyExn (String × String) := do
  let kb_answer ← kb (triage_query args)
  pure (classifyUrgency kb_answer, kb_answer)

/- ----------------------------------------------------------------
   server.py : handle_schedule_appointment (lines 145-163)
   ---------------------------------------------------------------- -/

/-- The result dict of `handle_schedule_appointment`. -/
structure ScheduleResult where
  selected_slot : String
  speciality : String
  note : String
deriving DecidableEq, Repr

/-- server.py lines 145-163: map the urgency level to a slot relative to
`now` (seconds, UTC); `iso` models `datetime.isoformat` on a time in
seconds. -/
def handle_schedule_appointment (iso : Nat → String) (now : Nat)
    (args : ToolArgs) : ScheduleResult :=
  let level := args.urgency_level.getD "moderate"
  let speciality := args.speciality.getD "general practitioner"
  let slot :=
    if level = "critical" then "IMMEDIATE (emergency department recommended)"
    else if level = "high" then iso (now + 2 * 60 * 60) ++ "Z"
    else if level = "moderate" then iso (now + 1 * 24 * 60 * 60) ++ "Z"
    else iso (now + 3 * 24 * 60 * 60) ++ "Z"
  { selected_slot := slot
    speciality := speciality
    note := "Simulated appointment slot for demo purposes." }

/- ----------------------------------------------------------------
   server.py : handle_notify_team (lines 166-179)
   ---------------------------------------------------------------- -/

/-- The result dict of `handle_notify_team`. -/
structure NotifyResult where
  status : String
  message : String
  timestamp : String
deriving DecidableEq, Repr

/-- server.py lines 166-179: build the mock notification message and
timestamp it. -/
def handle_notify_team (iso : Nat → String) (now : Nat)
    (args : ToolArgs) : NotifyResult :=
  let urgency_level := args.urgency_level.getD "moderate"
  let summary := args.patient_summary.getD ""
  let slot := args.appointment_slot.getD ""
  { status := "sent"
    message := "[MOCK NOTIFICATION] Urgency: " ++ pyUpper urgency_level ++
      " | " ++ "Appointment: " ++ slot ++ " | Patient summary: " ++
      strTake summary 200 ++ "..."
    timestamp := iso now ++ "Z" }

/- ----------------------------------------------------------------
   server.py : call_tool (lines 72-112)
   ---------------------------------------------------------------- -/

/-- server.py lines 72-112: the dispatch entry point. Each branch wraps its
handler result as `{"ok": True, **result}` or, when the handler raises, as
a structured error payload; an unrecognized name yields the unknown-tool
payload. The schedule and notify handlers are total in this model (their
Python `try` blocks only raise on argument-type errors the schema rules
out), so their `except` branches are not taken. -/
def call_tool (kb : String → Except PyExn String) (iso : Nat → String)
    (now : Nat) (name : String) (args : ToolArgs) : Dict :=
  if name = "triage_patient" then
    match handle_triage_patient kb args with
    | .ok (u, a) =>
        [("ok", .jbool true), ("urgency_level", .jstr u),
         ("guidelines_answer", .jstr a)]
    | .error e =>
        [("ok", .jbool false),
         ("error", .jstr ("Triage error: " ++ e.className)),
         ("details", .jstr e.msg)]
  else if name = "schedule_appointment" then
    let r := handle_schedule_appointment iso now args
    [("ok", .jbool true), ("selected_slot", .jstr r.selected_slot),
     ("speciality", .jstr r.speciality), ("note", .jstr r.note)]
  else if name = "notify_team" then
    let r := handle_notify_team iso now args
    [("ok", .jbool true), ("status", .jstr r.status),
     ("message", .jstr r.message), ("timestamp", .jstr r.timestamp)]
  else
    [("ok", .jbool false), ("error", .jstr ("Unknown tool: " ++ name))]

/- ----------------------------------------------------------------
   app.py : _call_mcp_tool_async (lines 41-90)
   ---------------------------------------------------------------- -/

/-- One element of `result.content` as seen by the dispatch client: either a
text content (carrying `c.text or ""`) or some other content kind with its
`str(c)` rendering. -/
inductive MCPContent where
  | textContent (text : String)
  | otherContent (rendered : String)
deriving DecidableEq, Repr

/-- `str(c)` for a content element. -/
def contentStr : MCPContent → String
  | .textContent t => t
  | .otherContent r => r

/-- The tool-call response delivered by the transport. -/
structure MCPResult where
  content : List MCPContent
deriving DecidableEq, Repr

/-- app.py lines 67-83: the `for c in result.content` loop body. The first
text content encountered is processed and returned (empty text and JSON
decode failures become error dicts); non-text contents are skipped; `none`
means the loop fell through. `parse` models `json.loads`, its `.error`
carrying `str(e)` of the decode error. -/
def processContents (parse : String → Except String Dict) (tool_name : String) :
    List MCPContent → Option Dict
  | [] => none
  | .textContent t :: _ =>
      let raw := pyStrip t
      some
        (if raw = "" then
          [("error", .jstr "MCP tool returned empty text content"),
           ("tool_name", .jstr tool_name)]
        else
          match parse raw with
          | .ok d => d
          | .error e =>
              [("error", .jstr "Invalid JSON from MCP tool"),
               ("tool_name", .jstr tool_name), ("raw_text", .jstr raw),
               ("json_error", .jstr e)])
  | .otherContent _ :: rest => processContents parse tool_name rest

/-- app.py lines 41-90: the dispatch client. Calls the tool over the
transport (the response is the `result` argument here), then decodes the
first text content into a dict, converting missing, empty, non-text and
non-JSON content into structured error dicts. -/
def call_mcp_tool (parse : String → Except String Dict) (tool_name : String)
    (result : MCPResult) : Dict :=
  if result.content = [] then
    [("error", .jstr "MCP tool returned no content"),
     ("tool_name", .jstr tool_name)]
  else
    match processContents parse tool_name result.content with
    | some d => d
    | none =>
        [("error", .jstr "No TextContent from MCP tool"),
         ("tool_name", .jstr tool_name),
         ("content", .jarr (result.content.map contentStr))]

/- ----------------------------------------------------------------
   app.py : conversation state and turn handling (lines 144-220)
   ---------------------------------------------------------------- -/

/-- One message of `conversation_history`, in OpenAI format. -/
structure Msg where
  role : String
  content : String
deriving DecidableEq, Repr

/-- app.py lines 156-167: the fixed system instruction prefixed before the
history when calling the dialog LLM. -/
def systemMsg : Msg :=
  { role := "system"
    content := "You are a warm, empathetic medical intake agent speaking " ++
      "ENGLISH. Your job is to ask clear questions about the patient " ++
      "symptoms, duration, risk factors, and any relevant context. " ++
      "Keep answers short, natural, and friendly, like a real call " ++
      "center nurse." }

/-- app.py lines 150-175 (`_agent_reply_from_text`): append the user turn,
call the LLM on the system message plus the whole history, append the
assistant turn; returns the new history and the reply. `llm` models the
`openai_chat` completion call. -/
def agent_reply_from_text (llm : List Msg → String) (history : List Msg)
    (user_text : String) : List Msg × String :=
  let h1 := history ++ [{ role := "user", content := user_text }]
  let reply := llm (systemMsg :: h1)
  (h1 ++ [{ role := "assistant", content := reply }], reply)

/-- The `audio` argument of `handle_audio_input` when it is not `None`: a
dict carrying a `"filepath"` key, a plain string path, or anything else
(which the handler rejects). -/
inductive AudioIn where
  | dictWithFilepath (filepath : String)
  | strPath (filepath : String)
  | otherFormat
deriving DecidableEq, Repr

/-- app.py lines 178-220 (`handle_audio_input`): the Gradio audio callback,
with the conversation state passed explicitly. Returns
`(new_history, (chatbot_messages, agent_audio_path))`; a raised exception
is an `Except.error`. `stt` models `transcribe_audio_file`, `tts` models
`tts_to_wav`, `tmpPath` the fresh temp-file name. -/
def handle_audio_input (stt : String → Except PyExn String)
    (llm : List Msg → String) (tts : String → Except PyExn Unit)
    (tmpPath : String) (history : List Msg) (audio : Option AudioIn) :
    Except PyExn (List Msg × (List Msg × Option String)) :=
  match audio with
  | none => .ok (history, ([], none))
  | some a =>
    match (match a with
           | .dictWithFilepath fp => .ok fp
           | .strPath fp => .ok fp
           | .otherFormat =>
               .error { className := "RuntimeError",
                        msg := "Unexpected audio format. Please configure " ++
                          "gr.Audio(type=filepath)." } :
           Except PyExn String) with
    | .error e => .error e
    | .ok file_path =>
      let user_text :=
        match stt file_path with
        | .ok t => if t = "" then "[Empty transcription]" else t
        | .error e => "[STT error: " ++ e.msg ++ "]"
      let hr := agent_reply_from_text llm history user_text
      let agent_audio_path : Option String :=
        match tts hr.2 with
        | .ok _ => some tmpPath
        | .error _ => none
      .ok (hr.1, (hr.1, agent_audio_path))

/- ----------------------------------------------------------------
   app.py : end_call_and_generate_report (lines 238-334)
   ---------------------------------------------------------------- -/

/-- app.py lines 253-256: render the conversation as plain text, one
newline-terminated line per message, accumulated in order. -/
def renderTranscript (history : List Msg) : String :=
  history.foldl
    (fun acc m =>
      acc ++ (if m.role = "user" then "Patient: " else "Agent: ") ++
        m.content ++ "\n")
    ""

/-- The structured patient profile extracted by the LLM (app.py lines
110-137): the extraction contract fixes exactly these five keys. -/
structure PatientProfile where
  age : Int
  symptoms : String
  duration : String
  risk_factors : String
  other_context : String
deriving DecidableEq, Repr

/-- app.py line 265: the extracted profile dict passed as the arguments of
the `triage_patient` call. -/
def profileToArgs (p : PatientProfile) : ToolArgs :=
  { age := some p.age, symptoms := some p.symptoms,
    duration := some p.duration, risk_factors := some p.risk_factors,
    other_context := some p.other_context }

/-- app.py lines 304-332: the final report template, interpolated by string
concatenation exactly as the f-string does. `nowStr` models
`datetime.now().strftime(...)`. -/
def buildReport (nowStr : String) (p : PatientProfile) (urgency : String)
    (triage_result schedule_result notif_result : Dict)
    (conv_text : String) : String :=
  "\nMEDICAL TRIAGE REPORT: VOICE INTAKE\nGenerated: " ++
  (nowStr ++
  ("\n\nPATIENT INFORMATION:\nAge:              " ++
  (toString p.age ++
  (" years\nSymptoms:         " ++
  (p.symptoms ++
  ("\nDuration:         " ++
  (p.duration ++
  ("\nRisk Factors:     " ++
  (p.risk_factors ++
  ("\nOther Context:    " ++
  (p.other_context ++
  ("\n\nTRIAGE ASSESSMENT:\nUrgency Level:    " ++
  (pyUpper urgency ++
  ("\n\nClinical Recommendation:\n" ++
  (getStrD triage_result "guidelines_answer" "No recommendation available" ++
  ("\n\nAPPOINTMENT SCHEDULED:\nSlot:             " ++
  (getStrD schedule_result "selected_slot" "Not scheduled" ++
  ("\nSpecialty:        " ++
  (getStrD schedule_result "speciality" "General" ++
  ("\nNote:             " ++
  (getStrD schedule_result "note" "" ++
  ("\n\nTEAM NOTIFICATION:\nStatus:           " ++
  (pyUpper (getStrD notif_result "status" "unknown") ++
  ("\nTimestamp:        " ++
  (getStrD notif_result "timestamp" "N/A" ++
  ("\n\nCONVERSATION TRANSCRIPT:\n" ++
  (conv_text ++
  "\n")))))))))))))))))))))))))))

/-- app.py lines 238-334 (`end_call_and_generate_report`): the fail-fast
report pipeline. `extract` models `extract_patient_profile` (its `.error`
is a raised exception), `callTool` models `call_mcp_tool` (client plus
server plus transport), `dumps` models `json.dumps(..., indent=2)`. -/
def end_call_and_generate_report
    (extract : String → Except PyExn PatientProfile)
    (callTool : String → ToolArgs → Dict) (dumps : Dict → String)
    (nowStr : String) (history : List Msg) : String :=
  if history = [] then "No conversation found."
  else
    let conv_text := renderTranscript history
    match extract conv_text with
    | .error e => "⚠️ Error while extracting patient profile:\n" ++ e.msg
    | .ok patient_profile =>
      let triage_result := callTool "triage_patient"
        (profileToArgs patient_profile)
      if hasKey triage_result "error" then
        "❌ MCP error (triage_patient):\n" ++ dumps triage_result
      else
        let urgency := getStrD triage_result "urgency_level" "moderate"
        let schedule_result := callTool "schedule_appointment"
          { urgency_level := some urgency,
            speciality := some "general practitioner" }
        if hasKey schedule_result "error" then
          "❌ MCP error (schedule_appointment):\n" ++ dumps schedule_result
        else
          let notif_result := callTool "notify_team"
            { urgency_level := some urgency,
              patient_summary := some conv_text,
              appointment_slot :=
                some (getStrD schedule_result "selected_slot" "") }
          if hasKey notif_result "error" then
            "❌ MCP error (notify_team):\n" ++ dumps notif_result
          else
            buildReport nowStr patient_profile urgency triage_result
              schedule_result notif_result conv_text

/- ----------------------------------------------------------------
   Claims about the urgency cascade
   ---------------------------------------------------------------- -/

theorem emergency_of_dept (txt : String)
    (h : strContains txt "emergency department" = true) :
    strContains txt "emergency" = true := by
  rw [strContains_iff] at h ⊢
  have hp : ("emergency".data) <+: ("emergency department".data) := by decide
  exact (hp.isInfix).trans h

/-- Claim C1: for every guidelines_answer string, the triage classifier
assigns urgency_level by a case-insensitive ordered cascade with first
match winning: critical keywords first, then high, then low, else
moderate; in particular an answer containing both a critical-tier and a
low-tier keyword always classifies as critical. -/
theorem claim_C1 (ans : String) :
    ((strContains (pyLower ans) "emergency" = true ∨
      strContains (pyLower ans) "life-threatening" = true ∨
      strContains (pyLower ans) "call 911" = true) →
        classifyUrgency ans = "critical") ∧
    (¬ (strContains (pyLower ans) "emergency" = true ∨
        strContains (pyLower ans) "life-threatening" = true ∨
        strContains (pyLower ans) "call 911" = true) →
      (strContains (pyLower ans) "emergency department" = true ∨
       strContains (pyLower ans) "urgent evaluation" = true) →
        classifyUrgency ans = "high") ∧
    (¬ (strContains (pyLower ans) "emergency" = true ∨
        strContains (pyLower ans) "life-threatening" = true ∨
        strContains (pyLower ans) "call 911" = true) →
      ¬ (strContains (pyLower ans) "emergency department" = true ∨
         strContains (pyLower ans) "urgent evaluation" = true) →
      (strContains (pyLower ans) "monitor at home" = true ∨
       strContains (pyLower ans) "mild" = true) →
        classifyUrgency ans = "low") ∧
    (¬ (strContains (pyLower ans) "emergency" = true ∨
        strContains (pyLower ans) "life-threatening" = true ∨
        strContains (pyLower ans) "call 911" = true) →
      ¬ (strContains (pyLower ans) "emergency department" = true ∨
         strContains (pyLower ans) "urgent evaluation" = true) →
      ¬ (strContains (pyLower ans) "monitor at home" = true ∨
         strContains (pyLower ans) "mild" = true) →
        classifyUrgency ans = "moderate") ∧
    ((strContains (pyLower ans) "emergency" = true ∨
      strContains (pyLower ans) "life-threatening" = true ∨
      strContains (pyLower ans) "call 911" = true) →
      (strContains (pyLower ans) "monitor at home" = true ∨
       strContains (pyLower ans) "mild" = true) →
        classifyUrgency ans = "critical") := by
  unfold classifyUrgency critKw highKw lowKw
  refine ⟨?_, ?_, ?_, ?_, ?_⟩
  · intro h
    rcases h with h | h | h <;> simp [h]
  · intro hc hh
    have hc' : (strContains (pyLower ans) "emergency" ||
        strContains (pyLower ans) "life-threatening" ||
        strContains (pyLower ans) "call 911") = false := by
      simp only [not_or, Bool.not_eq_true] at hc
      simp [hc.1, hc.2.1, hc.2.2]
    rcases hh with h | h <;> simp [hc', h]
  · intro hc hh hl
    simp only [not_or] at hc hh
    rcases hl with h | h <;>
      simp [h, Bool.or_eq_true, hc.1, hc.2.1, hc.2.2, hh.1, hh.2]
  · intro hc hh hl
    simp only [not_or] at hc hh hl
    simp [Bool.or_eq_true, hc.1, hc.2.1, hc.2.2, hh.1, hh.2, hl.1, hl.2]
  · intro hc _
    rcases hc with h | h | h <;> simp [h]

/-- Witness for C1: the spec's literal test input, which contains both the
critical keyword "emergency" and the low keyword "mild", classifies as
critical. -/
theorem claim_C1_witness :
    classifyUrgency
      "This requires emergency evaluation but symptoms are otherwise mild" =
      "critical" :=
  (claim_C1 _).2.2.2.2 (Or.inl (by decide)) (Or.inr (by decide))

/-- Claim C6: the "high" tier can never be produced by the keyword
"emergency department" (its substring "emergency" already fires the
critical branch); the classifier returns "high" iff the lower-cased answer
contains "urgent evaluation" and none of the critical keywords. -/
theorem claim_C6 (ans : String) :
    classifyUrgency ans = "high" ↔
      (strContains (pyLower ans) "urgent evaluation" = true ∧
       strContains (pyLower ans) "emergency" = false ∧
       strContains (pyLower ans) "life-threatening" = false ∧
       strContains (pyLower ans) "call 911" = false) := by
  have hd := emergency_of_dept (pyLower ans)
  unfold classifyUrgency critKw highKw lowKw
  cases he : strContains (pyLower ans) "emergency" with
  | true => simp [he]
  | false =>
    cases hl : strContains (pyLower ans) "life-threatening" with
    | true => simp [he, hl]
    | false =>
      cases hc : strContains (pyLower ans) "call 911" with
      | true => simp [he, hl, hc]
      | false =>
        cases hdep : strContains (pyLower ans) "emergency department" with
        | true => exact absurd (hd hdep) (by simp [he])
        | false =>
          cases hu : strContains (pyLower ans) "urgent evaluation" with
          | true => simp [he, hl, hc, hdep, hu]
          | false =>
            cases hm : (strContains (pyLower ans) "monitor at home" ||
                strContains (pyLower ans) "mild") with
            | true => simp [he, hl, hc, hdep, hu, hm]
            | false => simp [he, hl, hc, hdep, hu, hm]

/- ----------------------------------------------------------------
   Claims about scheduling and notification
   ---------------------------------------------------------------- -/

/-- Claim C3: schedule_appointment deterministically maps urgency to a slot
relative to the current UTC time: critical gives the fixed immediate
sentinel (no timestamp), high gives now + 2 hours, moderate gives
now + 1 day, any other value gives now + 3 days, timestamps carrying a
trailing "Z"; speciality defaults to "general practitioner" when absent. -/
theorem claim_C3 (iso : Nat → String) (now : Nat) (args : ToolArgs) :
    (args.urgency_level = some "critical" →
      (handle_schedule_appointment iso now args).selected_slot =
        "IMMEDIATE (emergency department recommended)") ∧
    (args.urgency_level = some "high" →
      (handle_schedule_appointment iso now args).selected_slot =
        iso (now + 2 * 60 * 60) ++ "Z") ∧
    (args.urgency_level = some "moderate" →
      (handle_schedule_appointment iso now args).selected_slot =
        iso (now + 1 * 24 * 60 * 60) ++ "Z") ∧
    (∀ u, args.urgency_level = some u → u ≠ "critical" → u ≠ "high" →
      u ≠ "moderate" →
      (handle_schedule_appointment iso now args).selected_slot =
        iso (now + 3 * 24 * 60 * 60) ++ "Z") ∧
    (args.speciality = none →
      (handle_schedule_appointment iso now args).speciality =
        "general practitioner") := by
  refine ⟨?_, ?_, ?_, ?_, ?_⟩
  · intro h; simp [handle_schedule_appointment, h]
  · intro h; simp [handle_schedule_appointment, h]
  · intro h; simp [handle_schedule_appointment, h]
  · intro u hu h1 h2 h3; simp [handle_schedule_appointment, hu, h1, h2, h3]
  · intro h; simp [handle_schedule_appointment, h]

/-- Witness for C3: a critical urgency yields the immediate sentinel, and
an absent speciality defaults, at a concrete clock. -/
theorem claim_C3_witness :
    (handle_schedule_appointment (fun _ => "2026-01-01T00:00:00") 0
        { urgency_level := some "critical" }).selected_slot =
      "IMMEDIATE (emergency department recommended)" ∧
    (handle_schedule_appointment (fun _ => "2026-01-01T00:00:00") 0
        { urgency_level := some "low" }).selected_slot =
      "2026-01-01T00:00:00" ++ "Z" :=
  ⟨(claim_C3 (fun _ => "2026-01-01T00:00:00") 0
      { urgency_level := some "critical" }).1 rfl,
   (claim_C3 (fun _ => "2026-01-01T00:00:00") 0
      { urgency_level := some "low" }).2.2.2.1 "low" rfl
      (by decide) (by decide) (by decide)⟩

/-- Claim C4: notify_team returns status "sent", a UTC timestamp with a
trailing "Z", and a message embedding the upper-cased urgency, the
appointment slot, and at most the first 200 characters of the patient
summary, always ending with the literal three-character "..." marker. -/
theorem claim_C4 (iso : Nat → String) (now : Nat) (args : ToolArgs) :
    (handle_notify_team iso now args).status = "sent" ∧
    (handle_notify_team iso now args).timestamp = iso now ++ "Z" ∧
    strSub (pyUpper (args.urgency_level.getD "moderate"))
      (handle_notify_team iso now args).message ∧
    strSub (args.appointment_slot.getD "")
      (handle_notify_team iso now args).message ∧
    strSub (strTake (args.patient_summary.getD "") 200)
      (handle_notify_team iso now args).message ∧
    (strTake (args.patient_summary.getD "") 200).data.length ≤ 200 ∧
    ("...".data) <:+ (handle_notify_team iso now args).message.data := by
  refine ⟨rfl, rfl, ?_, ?_, ?_, ?_, ?_⟩
  · show strSub _ ("[MOCK NOTIFICATION] Urgency: " ++
      pyUpper (args.urgency_level.getD "moderate") ++ " | " ++
      "Appointment: " ++ args.appointment_slot.getD "" ++
      " | Patient summary: " ++
      strTake (args.patient_summary.getD "") 200 ++ "...")
    repeat first
      | exact strSub_ext_left _ _ _ (strSub_refl _)
      | apply strSub_ext_right
  · show strSub _ ("[MOCK NOTIFICATION] Urgency: " ++
      pyUpper (args.urgency_level.getD "moderate") ++ " | " ++
      "Appointment: " ++ args.appointment_slot.getD "" ++
      " | Patient summary: " ++
      strTake (args.patient_summary.getD "") 200 ++ "...")
    repeat first
      | exact strSub_ext_left _ _ _ (strSub_refl _)
      | apply strSub_ext_right
  · show strSub _ ("[MOCK NOTIFICATION] Urgency: " ++
      pyUpper (args.urgency_level.getD "moderate") ++ " | " ++
      "Appointment: " ++ args.appointment_slot.getD "" ++
      " | Patient summary: " ++
      strTake (args.patient_summary.getD "") 200 ++ "...")
    repeat first
      | exact strSub_ext_left _ _ _ (strSub_refl _)
      | apply strSub_ext_right
  · simp [strTake]
  · show ("...".data) <:+ (("[MOCK NOTIFICATION] Urgency: " ++
      pyUpper (args.urgency_level.getD "moderate") ++ " | " ++
      "Appointment: " ++ args.appointment_slot.getD "" ++
      " | Patient summary: " ++
      strTake (args.patient_summary.getD "") 200 ++ "...") : String).data
    rw [String.data_append]
    exact List.suffix_append _ _

/- ----------------------------------------------------------------
   Claims about the dispatch boundary
   ---------------------------------------------------------------- -/

/-- Claim C7: the triage_patient dispatch branch never raises across the
dispatch boundary: a knowledge-base exception is converted into a
structured payload with ok false, an error-class tag and a detail string,
and a successful handler run is wrapped as an ok payload. (In the
embedding, `call_tool` is a total function: the absence of any raising
path is part of its type.) -/
theorem claim_C7 (kb : String → Except PyExn String) (iso : Nat → String)
    (now : Nat) (args : ToolArgs) :
    (∀ e, kb (triage_query args) = .error e →
      call_tool kb iso now "triage_patient" args =
        [("ok", .jbool false),
         ("error", .jstr ("Triage error: " ++ e.className)),
         ("details", .jstr e.msg)]) ∧
    (∀ ans, kb (triage_query args) = .ok ans →
      call_tool kb iso now "triage_patient" args =
        [("ok", .jbool true),
         ("urgency_level", .jstr (classifyUrgency ans)),
         ("guidelines_answer", .jstr ans)]) := by
  constructor
  · intro e he
    simp [call_tool, handle_triage_patient, he]
  · intro ans hans
    simp [call_tool, handle_triage_patient, hans]

/-- Witness for C7: a knowledge base that raises a ValueError is reported
as a structured triage error payload. -/
theorem claim_C7_witness :
    call_tool (fun _ => .error ⟨"ValueError", "boom"⟩) (fun _ => "") 0
        "triage_patient" {} =
      [("ok", .jbool false),
       ("error", .jstr ("Triage error: " ++ "ValueError")),
       ("details", .jstr "boom")] :=
  (claim_C7 (fun _ => .error ⟨"ValueError", "boom"⟩) (fun _ => "") 0 {}).1
    ⟨"ValueError", "boom"⟩ rfl

/-- Claim C8: any operation name other than the three known tools yields a
structured payload with ok false and an "Unknown tool" error naming the
tool, instead of raising. -/
theorem claim_C8 (kb : String → Except PyExn String) (iso : Nat → String)
    (now : Nat) (name : String) (args : ToolArgs)
    (h1 : name ≠ "triage_patient") (h2 : name ≠ "schedule_appointment")
    (h3 : name ≠ "notify_team") :
    call_tool kb iso now name args =
      [("ok", .jbool false), ("error", .jstr ("Unknown tool: " ++ name))] := by
  simp [call_tool, h1, h2, h3]

/-- Witness for C8: a concrete unrecognized tool name. -/
theorem claim_C8_witness :
    call_tool (fun _ => .ok "") (fun _ => "") 0 "make_coffee" {} =
      [("ok", .jbool false),
       ("error", .jstr ("Unknown tool: " ++ "make_coffee"))] :=
  claim_C8 (fun _ => .ok "") (fun _ => "") 0 "make_coffee" {}
    (by decide) (by decide) (by decide)

theorem processContents_other (parse : String → Except String Dict)
    (tool_name : String) (ss : List String) :
    processContents parse tool_name (ss.map MCPContent.otherContent) =
      none := by
  induction ss with
  | nil => rfl
  | cons s ss ih => simpa [processContents] using ih

/-- Claim C10: every failure payload produced by the tool-dispatch layer
(server handler exception, unknown tool name, and the client wrapper on
missing, empty, non-text or non-JSON response content) contains the key
"error", while every success payload never contains it; the client passes
a successfully parsed payload through unchanged, so the orchestrator's
check for an "error" key aborts the pipeline on exactly the failure
cases. -/
theorem claim_C10 :
    (∀ kb iso now args e, kb (triage_query args) = .error e →
      hasKey (call_tool kb iso now "triage_patient" args) "error" = true) ∧
    (∀ kb iso now args ans, kb (triage_query args) = .ok ans →
      hasKey (call_tool kb iso now "triage_patient" args) "error" = false) ∧
    (∀ kb iso now args,
      hasKey (call_tool kb iso now "schedule_appointment" args) "error" =
        false) ∧
    (∀ kb iso now args,
      hasKey (call_tool kb iso now "notify_team" args) "error" = false) ∧
    (∀ kb iso now name args, name ≠ "triage_patient" →
      name ≠ "schedule_appointment" → name ≠ "notify_team" →
      hasKey (call_tool kb iso now name args) "error" = true) ∧
    (∀ parse tool_name,
      hasKey (call_mcp_tool parse tool_name ⟨[]⟩) "error" = true) ∧
    (∀ parse tool_name t rest, pyStrip t = "" →
      hasKey (call_mcp_tool parse tool_name ⟨.textContent t :: rest⟩)
        "error" = true) ∧
    (∀ parse tool_name t rest e, pyStrip t ≠ "" →
      parse (pyStrip t) = .error e →
      hasKey (call_mcp_tool parse tool_name ⟨.textContent t :: rest⟩)
        "error" = true) ∧
    (∀ parse tool_name (ss : List String),
      hasKey
        (call_mcp_tool parse tool_name ⟨ss.map MCPContent.otherContent⟩)
        "error" = true) ∧
    (∀ parse tool_name t rest d, pyStrip t ≠ "" → parse (pyStrip t) = .ok d →
      call_mcp_tool parse tool_name ⟨.textContent t :: rest⟩ = d) := by
  refine ⟨?_, ?_, ?_, ?_, ?_, ?_, ?_, ?_, ?_, ?_⟩
  · intro kb iso now args e he
    simp [call_tool, handle_triage_patient, he, hasKey, List.lookup]
  · intro kb iso now args ans hans
    simp [call_tool, handle_triage_patient, hans, hasKey, List.lookup]
  · intro kb iso now args
    simp [call_tool, hasKey, List.lookup]
  · intro kb iso now args
    simp [call_tool, hasKey, List.lookup]
  · intro kb iso now name args h1 h2 h3
    simp [call_tool, h1, h2, h3, hasKey, List.lookup]
  · intro parse tool_name
    simp [call_mcp_tool, hasKey, List.lookup]
  · intro parse tool_name t rest hstrip
    simp [call_mcp_tool, processContents, hstrip, hasKey, List.lookup]
  · intro parse tool_name t rest e hstrip hparse
    simp [call_mcp_tool, processContents, hstrip, hparse, hasKey, List.lookup]
  · intro parse tool_name ss
    cases ss with
    | nil => simp [call_mcp_tool, hasKey, List.lookup]
    | cons s ss =>
        simp [call_mcp_tool, processContents,
          processContents_other parse tool_name ss, hasKey, List.lookup]
  · intro parse tool_name t rest d hstrip hparse
    simp [call_mcp_tool, processContents, hstrip, hparse]

/-- Witness for C10: concrete inputs exercising an empty transport
response, an empty text content, and a successful parse passthrough. -/
theorem claim_C10_witness :
    hasKey (call_mcp_tool (fun _ => .error "bad") "triage_patient" ⟨[]⟩)
      "error" = true ∧
    hasKey
      (call_mcp_tool (fun _ => .error "bad") "triage_patient"
        ⟨[.textContent "  "]⟩) "error" = true ∧
    call_mcp_tool (fun _ => .ok [("ok", .jbool true)]) "notify_team"
        ⟨[.textContent "x"]⟩ = [("ok", .jbool true)] :=
  ⟨claim_C10.2.2.2.2.2.1 (fun _ => .error "bad") "triage_patient",
   claim_C10.2.2.2.2.2.2.1 (fun _ => .error "bad") "triage_patient" "  " []
     (by decide),
   claim_C10.2.2.2.2.2.2.2.2.2 (fun _ => .ok [("ok", .jbool true)])
     "notify_team" "x" [] [("ok", .jbool true)] (by decide) rfl⟩

/- ----------------------------------------------------------------
   Claims about turn handling and the transcript
   ---------------------------------------------------------------- -/

/-- Counterexample to C5 as stated: with a non-empty session, submitting a
null audio input leaves the session unchanged but returns an EMPTY chatbot
message list, not the current transcript. -/
theorem claim_C5_counterexample :
    handle_audio_input (fun _ => .ok "") (fun _ => "") (fun _ => .ok ())
        "tmp.mp3" [{ role := "user", content := "hi" }] none ≠
      .ok ([{ role := "user", content := "hi" }],
        ([{ role := "user", content := "hi" }], none)) := by
  simp [handle_audio_input]

/-- Claim C5 amended: submitting a null/empty audio input is a no-op on the
session: the conversation history is returned unchanged, no turn is
appended, the result does not depend on the STT, LLM or TTS adapters (so
no LLM call is made), and the operation returns an empty chatbot message
list (not the current transcript) together with no audio. -/
theorem claim_C5_amended (stt : String → Except PyExn String)
    (llm : List Msg → String) (tts : String → Except PyExn Unit)
    (tmpPath : String) (history : List Msg) :
    handle_audio_input stt llm tts tmpPath history none =
      .ok (history, ([], none)) := rfl

/-- One transcript line of one conversation turn (app.py line 255). -/
def transcriptLine (m : Msg) : String :=
  (if m.role = "user" then "Patient: " else "Agent: ") ++ m.content

/-- The transcript as the claim describes it after amendment: one
newline-terminated line per turn, concatenated in chronological order. -/
def transcriptSpec : List Msg → String
  | [] => ""
  | m :: rest => transcriptLine m ++ "\n" ++ transcriptSpec rest

theorem empty_strAppend (s : String) : "" ++ s = s := by
  cases s with
  | mk d => rfl

/-- Counterexample to C9 as stated: the rendered transcript is not the
newline-JOINED lines; already for a single turn it carries a trailing
newline. -/
theorem claim_C9_counterexample :
    renderTranscript [{ role := "user", content := "hi" }] ≠
      String.intercalate "\n"
        ([{ role := "user", content := "hi" }].map transcriptLine) := by
  decide

/-- Claim C9 amended: the transcript rendered by endCallAndGenerateReport
consists of one line per turn, in chronological order, a Patient turn
rendering as "Patient: <text>" and an Agent turn as "Agent: <text>", each
line terminated by a newline and the lines concatenated in order (rather
than newline-joined without a trailing newline). -/
theorem claim_C9_amended (history : List Msg) :
    renderTranscript history = transcriptSpec history := by
  have go : ∀ (l : List Msg) (acc : String),
      l.foldl
        (fun acc m =>
          acc ++ (if m.role = "user" then "Patient: " else "Agent: ") ++
            m.content ++ "\n") acc =
        acc ++ transcriptSpec l := by
    intro l
    induction l with
    | nil => intro acc; simp [transcriptSpec, String.append_empty]
    | cons m rest ih =>
        intro acc
        rw [List.foldl_cons, ih]
        simp [transcriptSpec, transcriptLine, String.append_assoc]
  unfold renderTranscript
  rw [go history "", empty_strAppend]

/- ----------------------------------------------------------------
   Claim about the report pipeline
   ---------------------------------------------------------------- -/

/-- Claim C2: for every non-empty conversation session,
endCallAndGenerateReport either returns a report text in which all five
PatientProfile field values are verbatim-substituted, or returns an error
string naming the failing stage (extraction, triage_patient,
schedule_appointment, or notify_team); it never returns a partially-filled
report. -/
theorem claim_C2 (extract : String → Except PyExn PatientProfile)
    (callTool : String → ToolArgs → Dict) (dumps : Dict → String)
    (nowStr : String) (history : List Msg) (h : history ≠ []) :
    (∃ e, extract (renderTranscript history) = .error e ∧
      end_call_and_generate_report extract callTool dumps nowStr history =
        "⚠️ Error while extracting patient profile:\n" ++ e.msg) ∨
    (∃ d, end_call_and_generate_report extract callTool dumps nowStr history =
        "❌ MCP error (triage_patient):\n" ++ d) ∨
    (∃ d, end_call_and_generate_report extract callTool dumps nowStr history =
        "❌ MCP error (schedule_appointment):\n" ++ d) ∨
    (∃ d, end_call_and_generate_report extract callTool dumps nowStr history =
        "❌ MCP error (notify_team):\n" ++ d) ∨
    (∃ p, extract (renderTranscript history) = .ok p ∧
      strSub (toString p.age)
        (end_call_and_generate_report extract callTool dumps nowStr history) ∧
      strSub p.symptoms
        (end_call_and_generate_report extract callTool dumps nowStr history) ∧
      strSub p.duration
        (end_call_and_generate_report extract callTool dumps nowStr history) ∧
      strSub p.risk_factors
        (end_call_and_generate_report extract callTool dumps nowStr history) ∧
      strSub p.other_context
        (end_call_and_generate_report extract callTool dumps nowStr
          history)) := by
  cases hex : extract (renderTranscript history) with
  | error e =>
      refine Or.inl ⟨e, rfl, ?_⟩
      simp [end_call_and_generate_report, h, hex]
  | ok p =>
    by_cases h1 :
        hasKey (callTool "triage_patient" (profileToArgs p)) "error" = true
    · exact Or.inr (Or.inl
        ⟨dumps (callTool "triage_patient" (profileToArgs p)), by
          simp [end_call_and_generate_report, h, hex, h1]⟩)
    · rw [Bool.not_eq_true] at h1
      by_cases h2 :
          hasKey (callTool "schedule_appointment"
            { urgency_level :=
                some (getStrD (callTool "triage_patient" (profileToArgs p))
                  "urgency_level" "moderate"),
              speciality := some "general practitioner" }) "error" = true
      · exact Or.inr (Or.inr (Or.inl
          ⟨dumps (callTool "schedule_appointment"
            { urgency_level :=
                some (getStrD (callTool "triage_patient" (profileToArgs p))
                  "urgency_level" "moderate"),
              speciality := some "general practitioner" }), by
            simp [end_call_and_generate_report, h, hex, h1, h2]⟩))
      · rw [Bool.not_eq_true] at h2
        by_cases h3 :
            hasKey (callTool "notify_team"
              { urgency_level :=
                  some (getStrD (callTool "triage_patient" (profileToArgs p))
                    "urgency_level" "moderate"),
                patient_summary := some (renderTranscript history),
                appointment_slot :=
                  some (getStrD (callTool "schedule_appointment"
                    { urgency_level :=
                        some (getStrD
                          (callTool "triage_patient" (profileToArgs p))
                          "urgency_level" "moderate"),
                      speciality := some "general practitioner" })
                    "selected_slot" "") }) "error" = true
        · exact Or.inr (Or.inr (Or.inr (Or.inl
            ⟨dumps (callTool "notify_team"
              { urgency_level :=
                  some (getStrD (callTool "triage_patient" (profileToArgs p))
                    "urgency_level" "moderate"),
                patient_summary := some (renderTranscript history),
                appointment_slot :=
                  some (getStrD (callTool "schedule_appointment"
                    { urgency_level :=
                        some (getStrD
                          (callTool "triage_patient" (profileToArgs p))
                          "urgency_level" "moderate"),
                      speciality := some "general practitioner" })
                    "selected_slot" "") }), by
              simp [end_call_and_generate_report, h, hex, h1, h2, h3]⟩)))
        · rw [Bool.not_eq_true] at h3
          refine Or.inr (Or.inr (Or.inr (Or.inr
            ⟨p, rfl, ?_, ?_, ?_, ?_, ?_⟩)))
          all_goals
            rw [show end_call_and_generate_report extract callTool dumps
                nowStr history =
              buildReport nowStr p
                (getStrD (callTool "triage_patient" (profileToArgs p))
                  "urgency_level" "moderate")
                (callTool "triage_patient" (profileToArgs p))
                (callTool "schedule_appointment"
                  { urgency_level :=
                      some (getStrD
                        (callTool "triage_patient" (profileToArgs p))
                        "urgency_level" "moderate"),
                    speciality := some "general practitioner" })
                (callTool "notify_team"
                  { urgency_level :=
                      some (getStrD
                        (callTool "triage_patient" (profileToArgs p))
                        "urgency_level" "moderate"),
                    patient_summary := some (renderTranscript history),
                    appointment_slot :=
                      some (getStrD (callTool "schedule_appointment"
                        { urgency_level :=
                            some (getStrD
                              (callTool "triage_patient" (profileToArgs p))
                              "urgency_level" "moderate"),
                          speciality := some "general practitioner" })
                        "selected_slot" "") })
                (renderTranscript history) from by
              simp [end_call_and_generate_report, h, hex, h1, h2, h3]]
          all_goals simp only [buildReport]
          all_goals
            repeat first
              | exact strSub_ext_right _ _ _ (strSub_refl _)
              | apply strSub_ext_left

/-- Concrete extracted profile used by the C2 witness. -/
def wProfile : PatientProfile :=
  { age := 30, symptoms := "persistent cough", duration := "two days",
    risk_factors := "smoker", other_context := "recent travel" }

/-- Concrete extraction stub used by the C2 witness. -/
def wExtract : String → Except PyExn PatientProfile := fun _ => .ok wProfile

/-- Concrete tool-call stub used by the C2 witness: always an ok payload. -/
def wCallTool : String → ToolArgs → Dict := fun _ _ => [("ok", .jbool true)]

/-- Concrete dumps stub used by the C2 witness. -/
def wDumps : Dict → String := fun _ => ""

/-- Concrete non-empty session used by the C2 witness. -/
def wHistory : List Msg := [{ role := "user", content := "hello" }]

/-- Witness for C2: at a concrete non-empty session with a successful
extraction and error-free tool calls, the pipeline lands in one of the
claimed outcomes. -/
theorem claim_C2_witness :
    (∃ e, wExtract (renderTranscript wHistory) = .error e ∧
      end_call_and_generate_report wExtract wCallTool wDumps "now" wHistory =
        "⚠️ Error while extracting patient profile:\n" ++ e.msg) ∨
    (∃ d, end_call_and_generate_report wExtract wCallTool wDumps "now"
        wHistory = "❌ MCP error (triage_patient):\n" ++ d) ∨
    (∃ d, end_call_and_generate_report wExtract wCallTool wDumps "now"
        wHistory = "❌ MCP error (schedule_appointment):\n" ++ d) ∨
    (∃ d, end_call_and_generate_report wExtract wCallTool wDumps "now"
        wHistory = "❌ MCP error (notify_team):\n" ++ d) ∨
    (∃ p, wExtract (renderTranscript wHistory) = .ok p ∧
      strSub (toString p.age)
        (end_call_and_generate_report wExtract wCallTool wDumps "now"
          wHistory) ∧
      strSub p.symptoms
        (end_call_and_generate_report wExtract wCallTool wDumps "now"
          wHistory) ∧
      strSub p.duration
        (end_call_and_generate_report wExtract wCallTool wDumps "now"
          wHistory) ∧
      strSub p.risk_factors
        (end_call_and_generate_report wExtract wCallTool wDumps "now"
          wHistory) ∧
      strSub p.other_context
        (end_call_and_generate_report wExtract wCallTool wDumps "now"
          wHistory)) :=
  claim_C2 wExtract wCallTool wDumps "now" wHistory (by decide)
